import Mathlib

/-!
Shallow embedding of `src/Sentiment.py` (Streamlit headline sentiment app,
semantic-relevance variant).  The external Gemini classifier is modelled as an
oracle `String → ClassifierResult` mapping a prompt to either a reply text or
a raised error; `feedparser.parse` is modelled as `String → ParseResult`.
Side effects (`st.error` messages) become explicit message lists.  Timestamps
are modelled by `struct_time`-like records; the aware-UTC `datetime`
comparison `pub_date >= two_weeks_ago` is embedded through conversion to epoch
seconds (the standard civil-calendar conversion), and
`datetime.now(timezone.utc)` becomes an epoch-seconds parameter `nowSec`, so
`datetime.now(timezone.utc) - timedelta(days=14)` is `nowSec - 14 * 86400`.
-/

/-- Result of one call to the external classifier collaborator
(`model.generate_content`): either a reply text or a raised exception
carrying a message. -/
inductive ClassifierResult where
  | ok (text : String)
  | err (msg : String)
deriving DecidableEq

/-- The classifier handle: a deterministic oracle from prompt text to result
(each distinct prompt is issued at most once per entry, so determinism is
harmless). -/
def Classifier : Type := String → ClassifierResult

/-- Python `time.struct_time` as stored in `entry.published_parsed`:
nine integer fields.  `published_parsed[:6]` takes the first six. -/
structure StructTime where
  tm_year : Int
  tm_mon : Int
  tm_mday : Int
  tm_hour : Int
  tm_min : Int
  tm_sec : Int
  tm_wday : Int
  tm_yday : Int
  tm_isdst : Int
deriving DecidableEq

/-- The only timezone the program ever attaches (`tzinfo=timezone.utc`). -/
inductive TZ where
  | utc
deriving DecidableEq

/-- A timezone-aware Python `datetime` as built on line 114 of the source:
`datetime(*entry.published_parsed[:6], tzinfo=timezone.utc)`. -/
structure PyDateTime where
  year : Int
  month : Int
  day : Int
  hour : Int
  minute : Int
  second : Int
  tz : TZ
deriving DecidableEq

/-- Days from civil date to the 1970-01-01 epoch (standard civil-calendar
conversion, floor divisions). -/
def daysFromCivil (y m d : Int) : Int :=
  let y' := if m ≤ 2 then y - 1 else y
  let era := Int.fdiv y' 400
  let yoe := y' - era * 400
  let mp := if m > 2 then m - 3 else m + 9
  let doy := Int.fdiv (153 * mp + 2) 5 + d - 1
  let doe := yoe * 365 + Int.fdiv yoe 4 - Int.fdiv yoe 100 + doy
  era * 146097 + doe - 719468

/-- Epoch seconds of a UTC-aware `datetime`; comparison of two UTC-aware
Python datetimes is exactly comparison of their epoch seconds. -/
def PyDateTime.toEpochSeconds (dt : PyDateTime) : Int :=
  daysFromCivil dt.year dt.month dt.day * 86400
    + dt.hour * 3600 + dt.minute * 60 + dt.second

/-- Line 114: `datetime(*entry.published_parsed[:6], tzinfo=timezone.utc)` —
only the first six fields of the struct are used, and UTC is attached. -/
def pubDateOf (tm : StructTime) : PyDateTime :=
  { year := tm.tm_year, month := tm.tm_mon, day := tm.tm_mday,
    hour := tm.tm_hour, minute := tm.tm_min, second := tm.tm_sec,
    tz := TZ.utc }

/-- Left-pad a numeral with zeros to width `w`. -/
def zeroPad (w : Nat) (n : Nat) : String :=
  let s := toString n
  String.mk (List.replicate (w - s.length) '0') ++ s

/-- Line 132: `pub_date.strftime('%Y-%m-%d')` (CPython zero-pads `%Y` to four
digits and `%m`, `%d` to two). -/
def PyDateTime.strftimeYmd (dt : PyDateTime) : String :=
  zeroPad 4 dt.year.toNat ++ "-" ++ zeroPad 2 dt.month.toNat
    ++ "-" ++ zeroPad 2 dt.day.toNat

/-- A normalized feed entry.  `published_parsed = none` models both a missing
`published_parsed` attribute and a falsy one (the guard on line 113
`hasattr(entry, 'published_parsed') and entry.published_parsed` rejects
both the same way). -/
structure Entry where
  title : String
  link : String
  published_parsed : Option StructTime
deriving DecidableEq

/-- Outcome of `feedparser.parse` for one feed URL: a parsed entry list, or the
exception caught by the per-feed `try/except` (lines 110-135). -/
inductive ParseResult where
  | ok (entries : List Entry)
  | err (msg : String)
deriving DecidableEq

/-- One report row as appended on lines 127-133. -/
structure Row where
  Headline : String
  Link : String
  MatchedKeyword : String
  Sentiment : String
  Date : String
deriving DecidableEq

/-- The observable output of a run: report rows plus the `st.error` messages
emitted along the way. -/
structure RunOutput where
  rows : List Row
  warnings : List String
deriving DecidableEq

/-- Drop leading whitespace characters from a character list. -/
def dropLeadingWS : List Char → List Char
  | [] => []
  | c :: cs => if c.isWhitespace then dropLeadingWS cs else c :: cs

/-- Embedding of Python `str.strip()`: remove leading and trailing
whitespace.  (Defined by structural recursion on the character list so that
concrete instances evaluate inside the kernel.) -/
def pyStrip (s : String) : String :=
  String.mk (((dropLeadingWS s.data).reverse |> dropLeadingWS).reverse)

/-- Embedding of Python `str.split('\n')` on the character list: the
segments between newline characters, empty segments kept. -/
def splitLines : List Char → List (List Char)
  | [] => [[]]
  | c :: cs =>
      if c = '\n' then [] :: splitLines cs
      else
        match splitLines cs with
        | [] => [[c]]
        | l :: ls => (c :: l) :: ls

/-- The prompt built on lines 18-25 (f-string interpolation of the
comma-joined keyword list and the headline). -/
def relevance_prompt (headline : String) (keywords : List String) : String :=
  "\n        Analyse the following headline and determine if it is directly about or related to any of these topics: "
    ++ String.intercalate ", " keywords
    ++ ".\n\n        If it is related, respond with ONLY the topic from the list that it is most related to.\n        If it is not related to any of the topics, respond with ONLY the word \"None\".\n\n        Headline: \"" ++ headline ++ "\"\n        "

/-- The prompt built on lines 43-46. -/
def sentiment_prompt (headline term : String) : String :=
  "\n        Analyse the sentiment of the following headline strictly in relation to the term \x27" ++ term
    ++ "\x27. Is the headline positive, negative, or neutral about \x27" ++ term
    ++ "\x27?\n        Answer with only one word: Positive, Negative, or Neutral. Headline: \"" ++ headline ++ "\"\n        "

/-- Lines 10-37, `check_article_relevance`: issue one classifier call; trim
the reply; return it iff it is literally one of `keywords`, else `None`.
On a classifier exception, emit `st.error` and return `None`.
Result: (returned value, `st.error` messages emitted). -/
def check_article_relevance (headline : String) (keywords : List String)
    (model : Classifier) : Option String × List String :=
  match model (relevance_prompt headline keywords) with
  | ClassifierResult.ok text =>
      let result := pyStrip text
      if result ∈ keywords then (some result, []) else (none, [])
  | ClassifierResult.err e =>
      (none, ["Gemini API Error during relevance check: " ++ e])

/-- Lines 40-51, `get_gemini_sentiment`: issue one classifier call and return
the reply stripped of surrounding whitespace, with no further validation; on
a classifier exception, emit `st.error` and return the `"API Error"`
sentinel.  Result: (returned label, `st.error` messages emitted). -/
def get_gemini_sentiment (headline term : String) (model : Classifier) :
    String × List String :=
  match model (sentiment_prompt headline term) with
  | ClassifierResult.ok text => (pyStrip text, [])
  | ClassifierResult.err e => ("API Error", ["Gemini API Error: " ++ e])

/-- Line 103: `two_weeks_ago = datetime.now(timezone.utc) - timedelta(days=14)`,
as epoch seconds relative to the current instant `nowSec`. -/
def two_weeks_ago (nowSec : Int) : Int :=
  nowSec - 14 * 86400

/-- The recency test on line 116, `pub_date >= two_weeks_ago`, for an entry
whose `published_parsed` is the struct `tm`. -/
def recency_ok (nowSec : Int) (tm : StructTime) : Bool :=
  two_weeks_ago nowSec ≤ (pubDateOf tm).toEpochSeconds

/-- Python truthiness of `matched_keyword` on line 121: `None` and the empty
string are falsy. -/
def pyTruthy : Option String → Bool
  | none => false
  | some s => s ≠ ""

/-- Lines 113-133: processing of a single entry inside the feed loop.
Returns the appended row (if any) together with the `st.error` messages
emitted by the two classifier-calling functions. -/
def process_entry (nowSec : Int) (keywords : List String) (model : Classifier)
    (entry : Entry) : Option Row × List String :=
  match entry.published_parsed with
  | none => (none, [])
  | some tm =>
      let pub_date := pubDateOf tm
      if recency_ok nowSec tm then
        let rel := check_article_relevance entry.title keywords model
        match rel.1 with
        | some matched_keyword =>
            if matched_keyword ≠ "" then
              let sent := get_gemini_sentiment entry.title matched_keyword model
              (some { Headline := entry.title, Link := entry.link,
                      MatchedKeyword := matched_keyword,
                      Sentiment := sent.1,
                      Date := pub_date.strftimeYmd }, rel.2 ++ sent.2)
            else (none, rel.2)
        | none => (none, rel.2)
      else (none, [])

/-- The `st.error` message on line 135 for an unretrievable feed. -/
def feedWarning (feed_url e : String) : String :=
  "Could not parse feed " ++ feed_url ++ ". Error: " ++ e

/-- Lines 112-133: the rows and messages produced by one successfully parsed
feed, entries processed in order. -/
def process_feed_entries (nowSec : Int) (keywords : List String)
    (model : Classifier) (entries : List Entry) : List Row × List String :=
  (entries.filterMap (fun e => (process_entry nowSec keywords model e).1),
   (entries.map (fun e => (process_entry nowSec keywords model e).2)).flatten)

/-- Lines 102-135: the feed loop.  A `feedparser` failure on one feed yields
one `st.error` warning and processing continues with the next feed. -/
def run_analysis (parseFeed : String → ParseResult) (model : Classifier)
    (nowSec : Int) (feeds keywords : List String) : RunOutput :=
  feeds.foldl
    (fun acc feed_url =>
      match parseFeed feed_url with
      | ParseResult.ok entries =>
          let fr := process_feed_entries nowSec keywords model entries
          { rows := acc.rows ++ fr.1, warnings := acc.warnings ++ fr.2 }
      | ParseResult.err e =>
          { rows := acc.rows, warnings := acc.warnings ++ [feedWarning feed_url e] })
    { rows := [], warnings := [] }

/-- Lines 91-92: split a text area on newlines, strip each line, drop
the blank ones. -/
def parse_lines (s : String) : List String :=
  ((splitLines s.data).map (fun line => pyStrip (String.mk line))).filter
    (fun kw => kw ≠ "")

/-- Outcome of pressing the Analyze button: either the run halts at the
empty-input guard (lines 94-96, `st.warning` then `st.stop()`, before any
feed or classifier work), or it completes with a `RunOutput`. -/
inductive RunResult where
  | halted (warning : String)
  | completed (out : RunOutput)
deriving DecidableEq

/-- Lines 90-135: the main flow after configuration, from the raw text-area
inputs to the run outcome. -/
def analyze_feeds (parseFeed : String → ParseResult) (model : Classifier)
    (nowSec : Int) (feeds_input keywords_input : String) : RunResult :=
  let feeds := parse_lines feeds_input
  let initial_keywords := parse_lines keywords_input
  if feeds = [] ∨ initial_keywords = [] then
    RunResult.halted "Please provide at least one RSS feed and one keyword."
  else
    RunResult.completed (run_analysis parseFeed model nowSec feeds initial_keywords)

/-! ### Claim theorems -/

/-- C1: for every headline and seed topic list, the strategy-B relevance
resolver returns either `None` or a string identically equal (case-sensitive
string equality, i.e. list membership by `=`) to one of the input seed
topics; and any classifier reply whose trimmed text is not exactly one of the
supplied topics is coerced to `None`. -/
theorem C1_relevance_exclusivity (headline : String) (keywords : List String)
    (model : Classifier) :
    ((check_article_relevance headline keywords model).1 = none ∨
      ∃ s, (check_article_relevance headline keywords model).1 = some s ∧ s ∈ keywords)
    ∧ (∀ reply, model (relevance_prompt headline keywords) = ClassifierResult.ok reply →
        pyStrip reply ∉ keywords →
        (check_article_relevance headline keywords model).1 = none) := by
  unfold check_article_relevance
  cases h : model (relevance_prompt headline keywords) with
  | ok text =>
      constructor
      · by_cases hm : pyStrip text ∈ keywords
        · exact Or.inr ⟨pyStrip text, by simp [hm], hm⟩
        · exact Or.inl (by simp [hm])
      · intro reply hr hnm
        have ht : text = reply := ClassifierResult.ok.inj hr
        subst ht
        simp [hnm]
  | err e =>
      exact ⟨Or.inl rfl, fun reply hr _ => ClassifierResult.noConfusion hr⟩

/-- Witness for C1: a hallucinated out-of-list reply (wrong case) is coerced
to `None`. -/
theorem C1_relevance_exclusivity_witness :
    (check_article_relevance "AI wins" ["NVIDIA"]
      (fun _ => ClassifierResult.ok "Nvidia")).1 = none :=
  (C1_relevance_exclusivity "AI wins" ["NVIDIA"]
    (fun _ => ClassifierResult.ok "Nvidia")).2 "Nvidia" rfl (by decide)

/-- C2: for every reply the classifier returns to the sentiment scorer, the
scorer returns that reply trimmed of surrounding whitespace and otherwise
verbatim, performing no validation against any label set (the reply is
arbitrary text here). -/
theorem C2_sentiment_verbatim (headline term : String) (model : Classifier)
    (reply : String)
    (h : model (sentiment_prompt headline term) = ClassifierResult.ok reply) :
    get_gemini_sentiment headline term model = (pyStrip reply, []) := by
  unfold get_gemini_sentiment
  rw [h]

/-- Witness for C2: a reply far outside {Positive, Negative, Neutral} is
accepted verbatim after trimming. -/
theorem C2_sentiment_verbatim_witness :
    get_gemini_sentiment "h" "t" (fun _ => ClassifierResult.ok " Banana  ") =
      ("Banana", []) := by
  have := C2_sentiment_verbatim "h" "t" (fun _ => ClassifierResult.ok " Banana  ")
    " Banana  " rfl
  rw [this]
  decide

/-- C3: the recency filter admits an entry with a present timestamp iff its
publish instant is at or after `now - 14 days` (the window of the
semantic-relevance variant, in seconds): equality with the cutoff is
included, and a strictly earlier instant is excluded — in which case the
entry produces nothing at all. -/
theorem C3_recency_window (nowSec : Int) (keywords : List String)
    (model : Classifier) (entry : Entry) (tm : StructTime)
    (h : entry.published_parsed = some tm) :
    (recency_ok nowSec tm = true ↔
        nowSec - 14 * 86400 ≤ (pubDateOf tm).toEpochSeconds)
    ∧ ((pubDateOf tm).toEpochSeconds = nowSec - 14 * 86400 →
        recency_ok nowSec tm = true)
    ∧ ((pubDateOf tm).toEpochSeconds < nowSec - 14 * 86400 →
        process_entry nowSec keywords model entry = (none, [])) := by
  have hiff : recency_ok nowSec tm = true ↔
      nowSec - 14 * 86400 ≤ (pubDateOf tm).toEpochSeconds := by
    simp [recency_ok, two_weeks_ago]
  refine ⟨hiff, fun he => hiff.mpr (le_of_eq he.symm), fun hlt => ?_⟩
  have hfalse : recency_ok nowSec tm = false := by
    cases hb : recency_ok nowSec tm with
    | false => rfl
    | true => exact absurd (hiff.mp hb) (not_le.mpr hlt)
  unfold process_entry
  rw [h]
  simp [hfalse]

/-- Witness for C3: with `now` at epoch `14 * 86400`, the cutoff is epoch 0;
a timestamp of exactly 1970-01-01 00:00:00 passes the filter, and one second
earlier the entry yields nothing. -/
theorem C3_recency_window_witness :
    recency_ok 1209600 ⟨1970, 1, 1, 0, 0, 0, 4, 1, 0⟩ = true ∧
    process_entry 1209600 ["N"] (fun _ => ClassifierResult.ok "N")
      { title := "t", link := "l",
        published_parsed := some ⟨1969, 12, 31, 23, 59, 59, 3, 365, 0⟩ } =
      (none, []) := by
  constructor
  · exact (C3_recency_window 1209600 ["N"] (fun _ => ClassifierResult.ok "N")
      { title := "t", link := "l",
        published_parsed := some ⟨1970, 1, 1, 0, 0, 0, 4, 1, 0⟩ }
      ⟨1970, 1, 1, 0, 0, 0, 4, 1, 0⟩ rfl).2.1 (by decide)
  · exact (C3_recency_window 1209600 ["N"] (fun _ => ClassifierResult.ok "N")
      { title := "t", link := "l",
        published_parsed := some ⟨1969, 12, 31, 23, 59, 59, 3, 365, 0⟩ }
      ⟨1969, 12, 31, 23, 59, 59, 3, 365, 0⟩ rfl).2.2 (by decide)

/-- C4: an entry with an absent (or falsy) publish timestamp is excluded
whatever its title or content: it yields no row and no message, for every
classifier and keyword list, so it never reaches relevance resolution. -/
theorem C4_absent_timestamp_excluded (nowSec : Int) (keywords : List String)
    (model : Classifier) (entry : Entry)
    (h : entry.published_parsed = none) :
    process_entry nowSec keywords model entry = (none, []) := by
  unfold process_entry
  rw [h]

/-- Witness for C4: a dateless entry is dropped even though the classifier
would have matched it. -/
theorem C4_absent_timestamp_excluded_witness :
    process_entry 0 ["NVIDIA"] (fun _ => ClassifierResult.ok "NVIDIA")
      { title := "NVIDIA unveils new chip", link := "l",
        published_parsed := none } = (none, []) :=
  C4_absent_timestamp_excluded 0 ["NVIDIA"] (fun _ => ClassifierResult.ok "NVIDIA")
    { title := "NVIDIA unveils new chip", link := "l", published_parsed := none } rfl

/-- C5: a failure retrieving/parsing one feed is isolated to that feed:
with feeds `[A, B]` where `A` is unretrievable and `B` parses, the run
reports exactly the rows produced from `B`'s entries, plus the warning for
`A` (followed by whatever messages `B`'s entries emit). -/
theorem C5_feed_isolation (parseFeed : String → ParseResult) (model : Classifier)
    (nowSec : Int) (keywords : List String) (A B e : String)
    (entries : List Entry)
    (hA : parseFeed A = ParseResult.err e)
    (hB : parseFeed B = ParseResult.ok entries) :
    run_analysis parseFeed model nowSec [A, B] keywords =
      { rows := (process_feed_entries nowSec keywords model entries).1,
        warnings :=
          feedWarning A e :: (process_feed_entries nowSec keywords model entries).2 } := by
  simp [run_analysis, List.foldl_cons, List.foldl_nil, hA, hB]

/-- Helper feed oracle for the C5 witness: feed "A" raises, feed "B" parses
to a single dateless entry. -/
def wParseFeedC5 : String → ParseResult := fun u =>
  if u = "A" then ParseResult.err "boom"
  else ParseResult.ok [{ title := "t", link := "l", published_parsed := none }]

/-- Witness for C5: the bad feed "A" contributes one warning and processing
continues to feed "B". -/
theorem C5_feed_isolation_witness :
    run_analysis wParseFeedC5 (fun _ => ClassifierResult.ok "x") 0 ["A", "B"] ["k"] =
      { rows := [], warnings := ["Could not parse feed A. Error: boom"] } := by
  rw [C5_feed_isolation wParseFeedC5 (fun _ => ClassifierResult.ok "x") 0 ["k"]
    "A" "B" "boom" [{ title := "t", link := "l", published_parsed := none }]
    (by decide) (by decide)]
  decide

/-- C6: a classifier error during relevance resolution is caught: the
resolver reports it (the `st.error` message) and returns `None`, and the
affected entry — even one passing the recency filter — produces no report
row, only the error message; the run is not aborted. -/
theorem C6_relevance_error_degrades (headline : String) (keywords : List String)
    (model : Classifier) (e : String)
    (h : model (relevance_prompt headline keywords) = ClassifierResult.err e) :
    check_article_relevance headline keywords model =
      (none, ["Gemini API Error during relevance check: " ++ e])
    ∧ ∀ nowSec entry tm, entry.published_parsed = some tm →
        entry.title = headline → recency_ok nowSec tm = true →
        process_entry nowSec keywords model entry =
          (none, ["Gemini API Error during relevance check: " ++ e]) := by
  have hc : check_article_relevance headline keywords model =
      (none, ["Gemini API Error during relevance check: " ++ e]) := by
    unfold check_article_relevance
    rw [h]
  refine ⟨hc, fun nowSec entry tm hp ht hr => ?_⟩
  unfold process_entry
  rw [hp, ht]
  simp [hr, hc]

/-- Witness for C6: an always-failing classifier leaves a recent entry out of
the report, with one error message and no escalation. -/
theorem C6_relevance_error_degrades_witness :
    check_article_relevance "Headline" ["NVIDIA"]
      (fun _ => ClassifierResult.err "boom") =
      (none, ["Gemini API Error during relevance check: boom"]) ∧
    process_entry 0 ["NVIDIA"] (fun _ => ClassifierResult.err "boom")
      { title := "Headline", link := "l",
        published_parsed := some ⟨2026, 10, 1, 12, 0, 0, 3, 274, 0⟩ } =
      (none, ["Gemini API Error during relevance check: boom"]) := by
  have h := C6_relevance_error_degrades "Headline" ["NVIDIA"]
    (fun _ => ClassifierResult.err "boom") "boom" rfl
  constructor
  · rw [h.1]
    decide
  · have h2 := h.2 0 ⟨"Headline", "l", some ⟨2026, 10, 1, 12, 0, 0, 3, 274, 0⟩⟩
      ⟨2026, 10, 1, 12, 0, 0, 3, 274, 0⟩ rfl rfl (by decide)
    rw [h2]
    decide

/-- C7: a classifier error during sentiment scoring yields the `"API Error"`
sentinel instead of aborting, and the entry still appears in the report as a
row whose `Sentiment` field is that sentinel. -/
theorem C7_sentiment_error_sentinel (nowSec : Int) (keywords : List String)
    (model : Classifier) (entry : Entry) (tm : StructTime) (reply e : String)
    (hp : entry.published_parsed = some tm)
    (hr : recency_ok nowSec tm = true)
    (hok : model (relevance_prompt entry.title keywords) = ClassifierResult.ok reply)
    (hmem : pyStrip reply ∈ keywords) (hne : pyStrip reply ≠ "")
    (herr : model (sentiment_prompt entry.title (pyStrip reply)) =
      ClassifierResult.err e) :
    get_gemini_sentiment entry.title (pyStrip reply) model =
      ("API Error", ["Gemini API Error: " ++ e])
    ∧ process_entry nowSec keywords model entry =
        (some { Headline := entry.title, Link := entry.link,
                MatchedKeyword := pyStrip reply, Sentiment := "API Error",
                Date := (pubDateOf tm).strftimeYmd },
         ["Gemini API Error: " ++ e]) := by
  have hrel : check_article_relevance entry.title keywords model =
      (some (pyStrip reply), []) := by
    unfold check_article_relevance
    rw [hok]
    simp [hmem]
  have hsent : get_gemini_sentiment entry.title (pyStrip reply) model =
      ("API Error", ["Gemini API Error: " ++ e]) := by
    unfold get_gemini_sentiment
    rw [herr]
  refine ⟨hsent, ?_⟩
  unfold process_entry
  rw [hp]
  simp [hr, hrel, hsent, hne]

/-- Helper classifier for the C7 witness: the sentiment prompt raises, every
other prompt (in particular the relevance prompt) answers "NVIDIA". -/
def wModelC7 : Classifier := fun p =>
  if p = sentiment_prompt "NVIDIA unveils new chip" "NVIDIA" then
    ClassifierResult.err "boom"
  else ClassifierResult.ok "NVIDIA"

set_option maxRecDepth 100000 in
/-- Witness for C7: the row survives with sentiment "API Error". -/
theorem C7_sentiment_error_sentinel_witness :
    process_entry 0 ["NVIDIA"] wModelC7
      { title := "NVIDIA unveils new chip", link := "l",
        published_parsed := some ⟨2026, 10, 1, 12, 0, 0, 3, 274, 0⟩ } =
      (some { Headline := "NVIDIA unveils new chip", Link := "l",
              MatchedKeyword := "NVIDIA", Sentiment := "API Error",
              Date := "2026-10-01" },
       ["Gemini API Error: boom"]) := by
  rw [(C7_sentiment_error_sentinel 0 ["NVIDIA"] wModelC7
    { title := "NVIDIA unveils new chip", link := "l",
      published_parsed := some ⟨2026, 10, 1, 12, 0, 0, 3, 274, 0⟩ }
    ⟨2026, 10, 1, 12, 0, 0, 3, 274, 0⟩ "NVIDIA" "boom"
    rfl (by decide) (by decide) (by decide) (by decide) (by decide)).2]
  decide

/-- C8: if after parsing the text-area inputs the feed list or the keyword
list is empty, the run halts at the guard with the warning, before any feed
or classifier processing, and produces no rows (the outcome carries no
`RunOutput` at all and does not depend on the feed or classifier oracles). -/
theorem C8_empty_config_halts (parseFeed : String → ParseResult)
    (model : Classifier) (nowSec : Int) (feeds_input keywords_input : String)
    (h : parse_lines feeds_input = [] ∨ parse_lines keywords_input = []) :
    analyze_feeds parseFeed model nowSec feeds_input keywords_input =
      RunResult.halted "Please provide at least one RSS feed and one keyword." := by
  rcases h with h | h <;> simp [analyze_feeds, h]

/-- Witness for C8: a whitespace-only feed list halts the run. -/
theorem C8_empty_config_halts_witness :
    analyze_feeds (fun _ => ParseResult.ok []) (fun _ => ClassifierResult.ok "x")
      0 "  \n " "NVIDIA" =
      RunResult.halted "Please provide at least one RSS feed and one keyword." :=
  C8_empty_config_halts (fun _ => ParseResult.ok []) (fun _ => ClassifierResult.ok "x")
    0 "  \n " "NVIDIA" (Or.inl (by decide))

/-- C9: if the user's topic list contains the literal string "None", a
classifier reply of "None" — the designated no-match token — passes the
membership check and is returned as a relevance match, indistinguishable
from a genuine match on that topic. -/
theorem C9_none_keyword_collision (headline : String) (keywords : List String)
    (model : Classifier) (reply : String)
    (hmem : "None" ∈ keywords)
    (hok : model (relevance_prompt headline keywords) = ClassifierResult.ok reply)
    (ht : pyStrip reply = "None") :
    check_article_relevance headline keywords model = (some "None", []) := by
  unfold check_article_relevance
  rw [hok]
  simp [ht, hmem]

/-- Witness for C9: with topics `["Politics", "None"]` and reply "None", the
resolver reports a match on "None". -/
theorem C9_none_keyword_collision_witness :
    check_article_relevance "Quiet day, nothing happened" ["Politics", "None"]
      (fun _ => ClassifierResult.ok "None") = (some "None", []) :=
  C9_none_keyword_collision "Quiet day, nothing happened" ["Politics", "None"]
    (fun _ => ClassifierResult.ok "None") "None" (by decide) rfl (by decide)

/-- C10: the publish datetime is built from only the first six fields of the
parsed time struct (two structs agreeing there yield the same datetime,
whatever their remaining fields say) and always carries the UTC timezone;
and any report row produced for the entry carries that UTC datetime
formatted as YYYY-MM-DD as its `Date`. -/
theorem C10_pubdate_utc_first_six (tm tm' : StructTime)
    (h1 : tm.tm_year = tm'.tm_year) (h2 : tm.tm_mon = tm'.tm_mon)
    (h3 : tm.tm_mday = tm'.tm_mday) (h4 : tm.tm_hour = tm'.tm_hour)
    (h5 : tm.tm_min = tm'.tm_min) (h6 : tm.tm_sec = tm'.tm_sec) :
    pubDateOf tm = pubDateOf tm'
    ∧ (pubDateOf tm).tz = TZ.utc
    ∧ ∀ nowSec keywords model entry row msgs,
        entry.published_parsed = some tm →
        process_entry nowSec keywords model entry = (some row, msgs) →
        row.Date = (pubDateOf tm).strftimeYmd := by
  refine ⟨?_, rfl, ?_⟩
  · unfold pubDateOf
    rw [h1, h2, h3, h4, h5, h6]
  · intro nowSec keywords model entry row msgs hp hrow
    simp only [process_entry, hp] at hrow
    split at hrow
    · split at hrow
      · split at hrow
        · simp only [Prod.mk.injEq, Option.some.inj] at hrow
          rw [← Option.some.inj hrow.1]
        · simp at hrow
      · simp at hrow
    · simp at hrow

/-- Witness for C10: two structs differing only in weekday/yearday/dst give
the same UTC datetime, whose formatted date stamps the produced row. -/
theorem C10_pubdate_utc_first_six_witness :
    pubDateOf ⟨2026, 10, 1, 12, 0, 0, 3, 274, 0⟩ =
      pubDateOf ⟨2026, 10, 1, 12, 0, 0, 9, 99, 1⟩
    ∧ (pubDateOf ⟨2026, 10, 1, 12, 0, 0, 3, 274, 0⟩).tz = TZ.utc
    ∧ "2026-10-01" = (pubDateOf ⟨2026, 10, 1, 12, 0, 0, 3, 274, 0⟩).strftimeYmd := by
  obtain ⟨a, b, c⟩ := C10_pubdate_utc_first_six
    ⟨2026, 10, 1, 12, 0, 0, 3, 274, 0⟩ ⟨2026, 10, 1, 12, 0, 0, 9, 99, 1⟩
    rfl rfl rfl rfl rfl rfl
  refine ⟨a, b, ?_⟩
  exact c 0 ["NVIDIA"] (fun _ => ClassifierResult.ok "NVIDIA")
    { title := "t", link := "l",
      published_parsed := some ⟨2026, 10, 1, 12, 0, 0, 3, 274, 0⟩ }
    { Headline := "t", Link := "l", MatchedKeyword := "NVIDIA",
      Sentiment := "NVIDIA", Date := "2026-10-01" } [] rfl (by decide)
